import Mathlib

/-!
Verification of the cluster-management metrics pipeline.

The development shallowly embeds the time-series metrics pipeline of the
repository: the `MetricsController` (resolution policy, dataset selection,
uniform-stride decimation, request handling) and the batch data-generation
script (raw sample generation, hourly/daily aggregation, consolidated
window files).

Modelling conventions:
- ISO-8601 timestamp strings at whole minutes are represented by their
  minute number (minutes since an epoch).  This is order-isomorphic to the
  string representation used by the code; taking the first 13 characters of
  the string (the hour prefix used as the hourly bucket key) corresponds to
  `t / 60`, and the first 10 characters (the day prefix) to `t / 1440`.
- JavaScript floating point channel values are represented by rationals;
  `toFixed(1)` followed by `parseFloat` is represented by rounding to one
  decimal place over ℚ.
- `Math.floor(i * step)` with the real-valued `step = currentPoints /
  targetPoints` is represented by natural-number division
  `i * currentPoints / targetPoints`.
- A JavaScript out-of-bounds array read yields `undefined`; where the code
  can perform one we model the read with `Option` (absent value) or, inside
  the decimation gather whose indices are bounds-checked, with `getD`.
-/

namespace ClusterMetrics

/-- One raw observation: a timestamp (minutes since epoch) and the four
numeric channels that travel together through every stage. -/
structure Sample where
  timestamp : Nat
  iopsRead : ℚ
  iopsWrite : ℚ
  thrRead : ℚ
  thrWrite : ℚ
deriving DecidableEq

/-- Columnar series payload, as stored in the consolidated JSON files and
returned by the metrics endpoint (`data` field of `MetricsResponse`). -/
structure MetricsData where
  timestamps : List Nat
  iopsRead : List ℚ
  iopsWrite : List ℚ
  thrRead : List ℚ
  thrWrite : List ℚ
deriving DecidableEq

/-- The §3 index-alignment invariant: the four channel arrays have the same
length as the timestamp array. -/
def aligned (d : MetricsData) : Prop :=
  d.iopsRead.length = d.timestamps.length ∧
  d.iopsWrite.length = d.timestamps.length ∧
  d.thrRead.length = d.timestamps.length ∧
  d.thrWrite.length = d.timestamps.length

instance (d : MetricsData) : Decidable (aligned d) := by
  unfold aligned; infer_instance

/-! ### MetricsController (src/unnamed/part_011)

`getResolution`, `getAggregationLevel`, `getDataPointCount`, the file-name
switch of `readMetricsFromFiles`, `applyOptimalSampling`, and the `index`
request handler.  The TypeScript `switch` statements compare the incoming
string against each case label and fall through to a `default`; we embed
them as chains of string comparisons over arbitrary `String` input. -/

/-- `MetricsController.getResolution`: time range to resolution label.
The `default` branch of the switch returns `'1h'`. -/
def getResolution (timeRange : String) : String :=
  if timeRange = "1h" then "1min"
  else if timeRange = "6h" then "5min"
  else if timeRange = "24h" then "15min"
  else if timeRange = "7d" then "1h"
  else if timeRange = "30d" then "6h"
  else if timeRange = "90d" then "1d"
  else "1h"

/-- `MetricsController.getDataPointCount`: time range to target point
budget; the `default` branch returns 96. -/
def getDataPointCount (timeRange : String) : Nat :=
  if timeRange = "1h" then 60
  else if timeRange = "6h" then 72
  else if timeRange = "24h" then 96
  else if timeRange = "7d" then 168
  else if timeRange = "30d" then 120
  else if timeRange = "90d" then 90
  else 96

/-- `MetricsController.getAggregationLevel`: time range to source
aggregation level (file family). -/
def getAggregationLevel (timeRange : String) : String :=
  if timeRange = "1h" ∨ timeRange = "6h" ∨ timeRange = "24h" then "raw-metrics"
  else if timeRange = "7d" ∨ timeRange = "30d" then "hourly-aggregated"
  else if timeRange = "90d" then "daily-aggregated"
  else "hourly-aggregated"

/-- The file-name switch inside `MetricsController.readMetricsFromFiles`;
the `default` branch selects the 24h raw file. -/
def fileNameFor (timeRange : String) : String :=
  if timeRange = "1h" then "raw-metrics-1h.json"
  else if timeRange = "6h" then "raw-metrics-6h.json"
  else if timeRange = "24h" then "raw-metrics-24h.json"
  else if timeRange = "7d" then "hourly-aggregated-7d.json"
  else if timeRange = "30d" then "hourly-aggregated-30d.json"
  else if timeRange = "90d" then "daily-aggregated-90d.json"
  else "raw-metrics-24h.json"

/-- The index-selection loop of `applyOptimalSampling`: for `i` in
`[0, targetPoints)` take `Math.floor(i * currentPoints / targetPoints)`,
keeping it only when below `currentPoints` (the code's bounds check). -/
def sampledIndices (currentPoints targetPoints : Nat) : List Nat :=
  ((List.range targetPoints).map (fun i => i * currentPoints / targetPoints)).filter
    (fun idx => idx < currentPoints)

/-- The body of `MetricsController.applyOptimalSampling`, with the target
point budget as a parameter: if the series is already within budget return
it unchanged, otherwise gather all five arrays at `sampledIndices`. -/
def decimate (data : MetricsData) (targetPoints : Nat) : MetricsData :=
  if data.timestamps.length ≤ targetPoints then data
  else
    let idxs := sampledIndices data.timestamps.length targetPoints
    { timestamps := idxs.map (fun i => data.timestamps.getD i 0)
      iopsRead := idxs.map (fun i => data.iopsRead.getD i 0)
      iopsWrite := idxs.map (fun i => data.iopsWrite.getD i 0)
      thrRead := idxs.map (fun i => data.thrRead.getD i 0)
      thrWrite := idxs.map (fun i => data.thrWrite.getD i 0) }

/-- `MetricsController.applyOptimalSampling`: the target budget comes from
`getDataPointCount(timeRange)`; the `targetResolution` parameter is unused
by the implementation. -/
def applyOptimalSampling (data : MetricsData) (targetResolution : String)
    (timeRange : String) : MetricsData :=
  decimate data (getDataPointCount timeRange)

/-- The `MetricsSeries` value built by `MetricsController.index` on
success.  `startTime`/`endTime` are JavaScript reads `timestamps[0]` and
`timestamps[length - 1]`, which are `undefined` on an empty array; we model
them as `Option Nat`. -/
structure MetricsResult where
  clusterId : String
  timeRange : String
  resolution : String
  data : MetricsData
  totalPoints : Nat
  startTime : Option Nat
  endTime : Option Nat
  aggregationMethod : String
deriving DecidableEq

/-- The three response shapes of `MetricsController.index`: HTTP 400 for
validation failure, HTTP 500 when the dataset read throws, HTTP 200 with
the result. -/
inductive MetricsResponse where
  | validationError (message : String)
  | serverError (message : String)
  | ok (result : MetricsResult)
deriving DecidableEq

/-- JavaScript falsiness of an optional query-string parameter: absent or
the empty string. -/
def strFalsy : Option String → Bool
  | none => true
  | some s => s = ""

/-- `MetricsController.index`.  The artifact store is a function from
(clusterId, file name) to the parsed `data` payload, `none` when the read
throws (missing file).  The second component of the result is the log of
artifact reads performed, so that "no I/O before validation" is a theorem
about the embedding.  Mirrors the source: default the time range to `24h`
when falsy, reject a falsy `clusterId` with a 400 before any read, compute
`actualResolution = resolution || getResolution(timeRange)` for the
response only, read the consolidated file, decimate, attach metadata. -/
def index (clusterId timeRange resolution : Option String)
    (store : String → String → Option MetricsData) :
    MetricsResponse × List (String × String) :=
  let tr := if strFalsy timeRange then "24h" else timeRange.getD "24h"
  if strFalsy clusterId then
    (MetricsResponse.validationError "clusterId is required", [])
  else
    let cid := clusterId.getD ""
    let actualResolution :=
      if strFalsy resolution then getResolution tr else resolution.getD ""
    let fn := fileNameFor tr
    match store cid fn with
    | none => (MetricsResponse.serverError "Failed to load metrics data", [(cid, fn)])
    | some rawData =>
      let data := applyOptimalSampling rawData (getResolution tr) tr
      (MetricsResponse.ok
        { clusterId := cid
          timeRange := tr
          resolution := actualResolution
          data := data
          totalPoints := data.timestamps.length
          startTime := data.timestamps.get? 0
          endTime := data.timestamps.get? (data.timestamps.length - 1)
          aggregationMethod := "avg" }, [(cid, fn)])

/-- Extract the data payload of a successful response. -/
def dataOf : MetricsResponse → Option MetricsData
  | MetricsResponse.ok r => some r.data
  | _ => none

/-- Extract the reported resolution of a successful response. -/
def resolutionOf : MetricsResponse → Option String
  | MetricsResponse.ok r => some r.resolution
  | _ => none

/-- Extract `(totalPoints, startTime, endTime)` of a successful response. -/
def metadataOf : MetricsResponse → Option (Nat × Option Nat × Option Nat)
  | MetricsResponse.ok r => some (r.totalPoints, r.startTime, r.endTime)
  | _ => none

/-- A consolidated file payload with zero points in every array. -/
def emptyData : MetricsData := ⟨[], [], [], [], []⟩

/-! ### Batch data generation script (src/unnamed/part_013)

`generateRawMetrics`, `deriveHourlyAggregated`, `deriveDailyAggregated`
and `createConsolidatedFiles`.  The script groups points with a JavaScript
`Map` keyed by a timestamp prefix; a `Map` preserves insertion order and
appends each point to its key's list, which we embed with
`insertGrouped`/`groupByKey`. -/

/-- Rounding to one decimal place (`parseFloat(x.toFixed(1))`) over ℚ. -/
def round1 (x : ℚ) : ℚ := (round (10 * x) : ℤ) / 10

/-- `points.reduce((sum, p) => sum + f(p), 0) / points.length`. -/
def avgChannel (l : List ℚ) : ℚ := l.sum / (l.length : ℚ)

/-- The averaged bucket point built by both aggregation passes: the given
bucket timestamp, and each channel the mean of the bucket's points rounded
to one decimal. -/
def avgPoint (ts : Nat) (points : List Sample) : Sample :=
  { timestamp := ts
    iopsRead := round1 (avgChannel (points.map Sample.iopsRead))
    iopsWrite := round1 (avgChannel (points.map Sample.iopsWrite))
    thrRead := round1 (avgChannel (points.map Sample.thrRead))
    thrWrite := round1 (avgChannel (points.map Sample.thrWrite)) }

/-- Append `p` to the entry of key `k` of an insertion-ordered association
list, creating the entry at the end when the key is new (the behaviour of
`map.get(key).push(point)` / `map.set(key, [])` on a JavaScript `Map`). -/
def insertGrouped (m : List (Nat × List Sample)) (k : Nat) (p : Sample) :
    List (Nat × List Sample) :=
  match m with
  | [] => [(k, [p])]
  | e :: rest => if e.1 = k then (k, e.2 ++ [p]) :: rest else e :: insertGrouped rest k p

/-- The grouping `forEach` of the aggregation passes: fold the series into
an insertion-ordered association list keyed by `key`. -/
def groupByKey (key : Sample → Nat) (l : List Sample) : List (Nat × List Sample) :=
  l.foldl (fun m p => insertGrouped m (key p) p) []

/-- Look up the (first) entry of key `k`; `[]` when absent. -/
def findGroup (m : List (Nat × List Sample)) (k : Nat) : List Sample :=
  match m with
  | [] => []
  | e :: rest => if e.1 = k then e.2 else findGroup rest k

/-- The ascending-by-timestamp comparator
`(a, b) => new Date(a.timestamp).getTime() - new Date(b.timestamp).getTime()`. -/
def tsLE (a b : Sample) : Bool := a.timestamp ≤ b.timestamp

/-- `array.sort(byTimestampAscending)`. -/
def sortByTimestamp (l : List Sample) : List Sample := l.mergeSort tsLE

/-- `deriveHourlyAggregated`: group raw points by the hour prefix of their
timestamp (minute model: `t / 60`), average each bucket into a point
stamped at the exact hour boundary (`hour * 60` minutes), and sort by
timestamp. -/
def deriveHourlyAggregated (rawData : List Sample) : List Sample :=
  sortByTimestamp
    ((groupByKey (fun p => p.timestamp / 60) rawData).map
      (fun e => avgPoint (e.1 * 60) e.2))

/-- `deriveDailyAggregated`: group hourly points by the day prefix of their
timestamp (minute model: `t / 1440`), average each bucket into a point
stamped at the day combined with the wall-clock hour:minute current at
aggregation time (`nowMinuteOfDay = currentHour * 60 + currentMinute`),
and sort by timestamp. -/
def deriveDailyAggregated (nowMinuteOfDay : Nat) (hourlyData : List Sample) :
    List Sample :=
  sortByTimestamp
    ((groupByKey (fun p => p.timestamp / 1440) hourlyData).map
      (fun e => avgPoint (e.1 * 1440 + nowMinuteOfDay) e.2))

/-- One generated raw sample: the minute timestamp and the four random
channel draws, abstracted by the value oracle `vals`. -/
def rawSample (vals : Nat → ℚ × ℚ × ℚ × ℚ) (t : Nat) : Sample :=
  { timestamp := t
    iopsRead := (vals t).1
    iopsWrite := (vals t).2.1
    thrRead := (vals t).2.2.1
    thrWrite := (vals t).2.2.2 }

/-- `generateRawMetrics`: for each of `numDays` consecutive days starting
at day `startDay`, one sample per minute (1440 per day). -/
def generateRawMetrics (vals : Nat → ℚ × ℚ × ℚ × ℚ) (startDay numDays : Nat) :
    List Sample :=
  (List.range numDays).flatMap (fun d =>
    (List.range 1440).map (fun m => rawSample vals ((startDay + d) * 1440 + m)))

/-- The window filters of `createConsolidatedFiles`:
`data.filter(p => new Date(p.timestamp) >= lo && new Date(p.timestamp) <= hi)`
(both bounds inclusive). -/
def filterWindow (lo hi : Nat) (l : List Sample) : List Sample :=
  l.filter (fun p => lo ≤ p.timestamp ∧ p.timestamp ≤ hi)

/-- Columnar payload written to a consolidated file: each of the five
arrays mapped separately from the row-ordered series. -/
def toColumnar (l : List Sample) : MetricsData :=
  { timestamps := l.map Sample.timestamp
    iopsRead := l.map Sample.iopsRead
    iopsWrite := l.map Sample.iopsWrite
    thrRead := l.map Sample.thrRead
    thrWrite := l.map Sample.thrWrite }

/-- A persisted consolidated file: time range and resolution tags plus the
columnar data payload. -/
structure WindowDataset where
  time_range : String
  resolution : String
  data : MetricsData
deriving DecidableEq

/-- The six consolidated files written by `createConsolidatedFiles` for one
entity, keyed by file name: the three raw windows and two hourly windows
filtered to `[now - range, now]` (inclusive), and the full daily series.
`nowT` is "now" truncated to the minute at regeneration time. -/
def createConsolidatedDatasets (nowT : Nat) (rawData hourlyData dailyData : List Sample) :
    List (String × WindowDataset) :=
  [("raw-metrics-1h.json",
      ⟨"1h", "1min", toColumnar (filterWindow (nowT - 60) nowT rawData)⟩),
   ("raw-metrics-6h.json",
      ⟨"6h", "1min", toColumnar (filterWindow (nowT - 360) nowT rawData)⟩),
   ("raw-metrics-24h.json",
      ⟨"24h", "1min", toColumnar (filterWindow (nowT - 1440) nowT rawData)⟩),
   ("hourly-aggregated-7d.json",
      ⟨"7d", "1h", toColumnar (filterWindow (nowT - 7 * 1440) nowT hourlyData)⟩),
   ("hourly-aggregated-30d.json",
      ⟨"30d", "1h", toColumnar (filterWindow (nowT - 30 * 1440) nowT hourlyData)⟩),
   ("daily-aggregated-90d.json",
      ⟨"90d", "1d", toColumnar dailyData⟩)]

/-- The artifact store visible after `generateClusterData` has freshly
regenerated entity `"c1"`: raw series from the generator, hourly derived
from raw, daily derived from hourly, the six window files persisted. -/
def regenStore (nowT nowMinuteOfDay : Nat) (rawData : List Sample) :
    String → String → Option MetricsData :=
  fun cid fn =>
    if cid = "c1" then
      ((createConsolidatedDatasets nowT rawData
          (deriveHourlyAggregated rawData)
          (deriveDailyAggregated nowMinuteOfDay (deriveHourlyAggregated rawData))).lookup fn).map
        WindowDataset.data
    else none

/-! ### Filesystem effect model of `createConsolidatedFiles`

The function deletes the entity's prior directory (`fs.rmSync` recursive),
recreates it (`fs.mkdirSync`), then writes the six files one
`fs.writeFileSync` at a time.  The visible state for one entity is
`none` (directory absent) or `some files` (directory present with the
files written so far, in write order); a crash partway leaves the state
reached by the executed prefix of operations. -/

/-- One filesystem mutation performed by `createConsolidatedFiles`. -/
inductive FsOp where
  | removeDirAll
  | makeDir
  | writeFile (name : String)
deriving DecidableEq

/-- The file names of the six consolidated datasets, in write order. -/
def consolidatedFileNames : List String :=
  ["raw-metrics-1h.json", "raw-metrics-6h.json", "raw-metrics-24h.json",
   "hourly-aggregated-7d.json", "hourly-aggregated-30d.json",
   "daily-aggregated-90d.json"]

/-- The operation sequence of `createConsolidatedFiles`: remove the prior
directory, recreate it, write the six files in order. -/
def regenOps : List FsOp :=
  FsOp.removeDirAll :: FsOp.makeDir :: consolidatedFileNames.map FsOp.writeFile

/-- Effect of one operation on the entity's directory state. -/
def applyFsOp : Option (List String) → FsOp → Option (List String)
  | _, FsOp.removeDirAll => none
  | _, FsOp.makeDir => some []
  | some files, FsOp.writeFile n => some (files ++ [n])
  | none, FsOp.writeFile _ => none

/-- Run a sequence of filesystem operations from a starting state. -/
def runFsOps (s : Option (List String)) (ops : List FsOp) : Option (List String) :=
  ops.foldl applyFsOp s

/-! ## Helper lemmas on the decimation index selection -/

theorem sampledIndices_eq (currentPoints targetPoints : Nat)
    (h : targetPoints < currentPoints) :
    sampledIndices currentPoints targetPoints =
      (List.range targetPoints).map (fun i => i * currentPoints / targetPoints) := by
  unfold sampledIndices
  rw [List.filter_eq_self]
  intro a ha
  rw [List.mem_map] at ha
  obtain ⟨i, hi, rfl⟩ := ha
  rw [List.mem_range] at hi
  have hT : 0 < targetPoints := Nat.lt_of_le_of_lt (Nat.zero_le i) hi
  have hN : 0 < currentPoints := Nat.lt_trans hT h
  simp only [decide_eq_true_eq]
  rw [Nat.div_lt_iff_lt_mul hT]
  calc i * currentPoints < targetPoints * currentPoints := by
        exact Nat.mul_lt_mul_of_lt_of_le hi (Nat.le_refl _) hN
    _ = currentPoints * targetPoints := Nat.mul_comm _ _

theorem div_strict_mono_aux {i j currentPoints targetPoints : Nat}
    (hT : 0 < targetPoints) (hTN : targetPoints < currentPoints) (hij : i < j) :
    i * currentPoints / targetPoints < j * currentPoints / targetPoints := by
  have h1 : i * currentPoints / targetPoints + 1 ≤ j * currentPoints / targetPoints := by
    rw [Nat.le_div_iff_mul_le hT]
    have h2 : (i * currentPoints / targetPoints) * targetPoints ≤ i * currentPoints :=
      Nat.div_mul_le_self _ _
    have h3 : (i + 1) * currentPoints ≤ j * currentPoints :=
      Nat.mul_le_mul_right currentPoints hij
    calc (i * currentPoints / targetPoints + 1) * targetPoints
        = (i * currentPoints / targetPoints) * targetPoints + targetPoints := by ring
      _ ≤ i * currentPoints + targetPoints := by omega
      _ ≤ (i + 1) * currentPoints := by ring_nf; omega
      _ ≤ j * currentPoints := h3
  omega

theorem sampledIndices_pairwise (currentPoints targetPoints : Nat)
    (h : targetPoints < currentPoints) :
    (sampledIndices currentPoints targetPoints).Pairwise (· < ·) := by
  rw [sampledIndices_eq _ _ h, List.pairwise_map, List.pairwise_iff_getElem]
  intro i j hi hj hij
  simp only [List.length_range] at hi hj
  simp only [List.getElem_range]
  exact div_strict_mono_aux
    (Nat.lt_of_le_of_lt (Nat.zero_le i) (Nat.lt_of_lt_of_le hij (Nat.le_of_lt hj))) h hij

theorem sampledIndices_lt (currentPoints targetPoints : Nat) :
    ∀ i ∈ sampledIndices currentPoints targetPoints, i < currentPoints := by
  intro i hi
  unfold sampledIndices at hi
  rw [List.mem_filter] at hi
  simpa using hi.2

theorem sampledIndices_length (currentPoints targetPoints : Nat)
    (h : targetPoints < currentPoints) :
    (sampledIndices currentPoints targetPoints).length = targetPoints := by
  rw [sampledIndices_eq _ _ h, List.length_map, List.length_range]

theorem decimate_of_le (d : MetricsData) (T : Nat) (h : d.timestamps.length ≤ T) :
    decimate d T = d := by
  unfold decimate
  rw [if_pos h]

theorem decimate_of_gt (d : MetricsData) (T : Nat) (h : T < d.timestamps.length) :
    decimate d T =
      { timestamps :=
          (sampledIndices d.timestamps.length T).map (fun i => d.timestamps.getD i 0)
        iopsRead :=
          (sampledIndices d.timestamps.length T).map (fun i => d.iopsRead.getD i 0)
        iopsWrite :=
          (sampledIndices d.timestamps.length T).map (fun i => d.iopsWrite.getD i 0)
        thrRead :=
          (sampledIndices d.timestamps.length T).map (fun i => d.thrRead.getD i 0)
        thrWrite :=
          (sampledIndices d.timestamps.length T).map (fun i => d.thrWrite.getD i 0) } := by
  unfold decimate
  rw [if_neg (by omega)]

theorem map_getD_sublist {α : Type} (l : List α) (d : α) (idxs : List Nat)
    (hp : idxs.Pairwise (· < ·)) (hb : ∀ i ∈ idxs, i < l.length) :
    (idxs.map (fun i => l.getD i d)).Sublist l := by
  have key : idxs.map (fun i => l.getD i d) =
      (idxs.attach.map (fun x => (⟨x.1, hb x.1 x.2⟩ : Fin l.length))).map
        (fun j => l[j]) := by
    rw [List.map_map]
    have hcong : ∀ x ∈ idxs.attach,
        ((fun j : Fin l.length => l[j]) ∘ fun x => (⟨x.1, hb x.1 x.2⟩ : Fin l.length)) x =
          l.getD x.1 d := by
      intro x _
      exact (List.getD_eq_getElem l d (hb x.1 x.2)).symm
    rw [List.map_congr_left hcong, List.attach_map_val idxs (fun i => l.getD i d)]
  rw [key]
  apply List.map_getElem_sublist
  rw [List.pairwise_map]
  have h2 : idxs.attach.Pairwise (fun a b => a.1 < b.1) := by
    have h3 := hp
    rw [← List.attach_map_subtype_val idxs, List.pairwise_map] at h3
    exact h3
  exact h2.imp (fun h => by simpa using h)

theorem map_getD_pairwise_lt (l : List Nat) (idxs : List Nat)
    (hp : idxs.Pairwise (· < ·)) (hb : ∀ i ∈ idxs, i < l.length)
    (hsort : l.Pairwise (· < ·)) :
    (idxs.map (fun i => l.getD i 0)).Pairwise (· < ·) := by
  rw [List.pairwise_map]
  refine List.Pairwise.imp_of_mem ?_ hp
  intro a b ha hb2 hlt
  rw [List.getD_eq_getElem l 0 (hb a ha), List.getD_eq_getElem l 0 (hb b hb2)]
  exact List.pairwise_iff_getElem.mp hsort a b (hb a ha) (hb b hb2) hlt

/-! ## Helper lemmas on insertion-ordered grouping and sorting -/

theorem insertGrouped_keys (m : List (Nat × List Sample)) (k : Nat) (p : Sample) :
    (insertGrouped m k p).map Prod.fst =
      if k ∈ m.map Prod.fst then m.map Prod.fst else m.map Prod.fst ++ [k] := by
  induction m with
  | nil => simp [insertGrouped]
  | cons e rest ih =>
    by_cases h : e.1 = k
    · subst h
      simp [insertGrouped]
    · simp only [insertGrouped, if_neg h, List.map_cons, ih]
      have hne : ¬k = e.1 := fun hk => h hk.symm
      by_cases hm : k ∈ rest.map Prod.fst
      · simp [hm, hne]
      · simp [hm, hne]

theorem findGroup_insertGrouped (m : List (Nat × List Sample)) (k : Nat) (p : Sample)
    (k' : Nat) :
    findGroup (insertGrouped m k p) k' =
      if k' = k then findGroup m k ++ [p] else findGroup m k' := by
  induction m with
  | nil =>
    by_cases h : k' = k
    · subst h; simp [insertGrouped, findGroup]
    · have h2 : ¬k = k' := fun hk => h hk.symm
      simp [insertGrouped, findGroup, h, h2]
  | cons e rest ih =>
    by_cases he : e.1 = k
    · subst he
      by_cases h : k' = e.1
      · subst h; simp [insertGrouped, findGroup]
      · have h2 : ¬e.1 = k' := fun hk => h hk.symm
        simp [insertGrouped, findGroup, h, h2]
    · simp only [insertGrouped, if_neg he]
      by_cases h : k' = k
      · subst h
        have hek : ¬e.1 = k' := he
        simp [findGroup, hek, ih]
      · by_cases h2 : e.1 = k'
        · subst h2; simp [findGroup, h]
        · simp [findGroup, h2, ih, h]

theorem findGroup_foldl (key : Sample → Nat) (l : List Sample)
    (m : List (Nat × List Sample)) (k : Nat) :
    findGroup (l.foldl (fun m p => insertGrouped m (key p) p) m) k =
      findGroup m k ++ l.filter (fun p => key p = k) := by
  induction l generalizing m with
  | nil => simp
  | cons p l ih =>
    rw [List.foldl_cons, ih, findGroup_insertGrouped]
    by_cases h : key p = k
    · subst h
      simp [List.filter_cons]
    · have h' : ¬k = key p := fun hk => h hk.symm
      simp [List.filter_cons, h, h']

theorem findGroup_groupByKey (key : Sample → Nat) (l : List Sample) (k : Nat) :
    findGroup (groupByKey key l) k = l.filter (fun p => key p = k) := by
  unfold groupByKey
  rw [findGroup_foldl]
  simp [findGroup]

theorem insertGrouped_keys_nodup (m : List (Nat × List Sample)) (k : Nat) (p : Sample)
    (h : (m.map Prod.fst).Nodup) : ((insertGrouped m k p).map Prod.fst).Nodup := by
  rw [insertGrouped_keys]
  by_cases hm : k ∈ m.map Prod.fst
  · simp [hm, h]
  · simp [hm, List.nodup_append, h]

theorem groupByKey_keys_nodup (key : Sample → Nat) (l : List Sample) :
    ((groupByKey key l).map Prod.fst).Nodup := by
  unfold groupByKey
  have gen : ∀ (m : List (Nat × List Sample)), (m.map Prod.fst).Nodup →
      ((l.foldl (fun m p => insertGrouped m (key p) p) m).map Prod.fst).Nodup := by
    induction l with
    | nil => intro m hm; simpa using hm
    | cons p l ih =>
      intro m hm
      exact ih _ (insertGrouped_keys_nodup m (key p) p hm)
  exact gen [] (by simp)

theorem mem_keys_insertGrouped (m : List (Nat × List Sample)) (k : Nat) (p : Sample)
    (k' : Nat) :
    (k' ∈ (insertGrouped m k p).map Prod.fst) ↔ (k' ∈ m.map Prod.fst ∨ k' = k) := by
  rw [insertGrouped_keys]
  by_cases hm : k ∈ m.map Prod.fst
  · simp only [hm, if_pos]
    constructor
    · intro h; exact Or.inl h
    · rintro (h | rfl)
      · exact h
      · exact hm
  · simp [hm]

theorem mem_keys_groupByKey (key : Sample → Nat) (l : List Sample) (k : Nat) :
    (k ∈ (groupByKey key l).map Prod.fst) ↔ (∃ p ∈ l, key p = k) := by
  unfold groupByKey
  have gen : ∀ (m : List (Nat × List Sample)),
      (k ∈ (l.foldl (fun m p => insertGrouped m (key p) p) m).map Prod.fst) ↔
        (k ∈ m.map Prod.fst ∨ ∃ p ∈ l, key p = k) := by
    induction l with
    | nil => intro m; simp
    | cons q l ih =>
      intro m
      rw [List.foldl_cons, ih, mem_keys_insertGrouped]
      constructor
      · rintro ((h | h) | h)
        · exact Or.inl h
        · exact Or.inr ⟨q, by simp, h.symm⟩
        · obtain ⟨p, hp, hk⟩ := h
          exact Or.inr ⟨p, by simp [hp], hk⟩
      · rintro (h | ⟨p, hp, hk⟩)
        · exact Or.inl (Or.inl h)
        · rcases List.mem_cons.mp hp with rfl | hp'
          · exact Or.inl (Or.inr hk.symm)
          · exact Or.inr ⟨p, hp', hk⟩
  rw [gen []]
  simp

theorem entry_eq_findGroup (m : List (Nat × List Sample))
    (hnd : (m.map Prod.fst).Nodup) (e : Nat × List Sample) (he : e ∈ m) :
    findGroup m e.1 = e.2 := by
  induction m with
  | nil => simp at he
  | cons f rest ih =>
    rcases List.mem_cons.mp he with rfl | he'
    · simp [findGroup]
    · have hf : ¬f.1 = e.1 := by
        intro hk
        have : e.1 ∈ rest.map Prod.fst := List.mem_map_of_mem Prod.fst he'
        rw [List.map_cons, List.nodup_cons] at hnd
        exact hnd.1 (hk ▸ this)
      simp only [findGroup, if_neg hf]
      exact ih (by rw [List.map_cons, List.nodup_cons] at hnd; exact hnd.2) he'

theorem mem_groupByKey_eq_filter (key : Sample → Nat) (l : List Sample)
    (e : Nat × List Sample) (he : e ∈ groupByKey key l) :
    e.2 = l.filter (fun p => key p = e.1) := by
  rw [← findGroup_groupByKey key l e.1]
  exact (entry_eq_findGroup _ (groupByKey_keys_nodup key l) e he).symm

theorem mem_groupByKey_key_mem (key : Sample → Nat) (l : List Sample)
    (e : Nat × List Sample) (he : e ∈ groupByKey key l) :
    ∃ p ∈ l, key p = e.1 := by
  rw [← mem_keys_groupByKey]
  exact List.mem_map_of_mem Prod.fst he

theorem tsLE_trans : ∀ (a b c : Sample),
    tsLE a b = true → tsLE b c = true → tsLE a c = true := by
  intro a b c hab hbc
  simp only [tsLE, decide_eq_true_eq] at *
  omega

theorem tsLE_total : ∀ (a b : Sample), (tsLE a b || tsLE b a) = true := by
  intro a b
  simp only [tsLE, Bool.or_eq_true, decide_eq_true_eq]
  omega

theorem sortByTimestamp_perm (l : List Sample) : (sortByTimestamp l).Perm l :=
  List.mergeSort_perm l tsLE

theorem sortByTimestamp_sorted (l : List Sample) :
    (sortByTimestamp l).Pairwise (fun a b => a.timestamp ≤ b.timestamp) := by
  have h := List.sorted_mergeSort tsLE_trans tsLE_total l
  exact h.imp (fun hab => by simpa [tsLE] using hab)

theorem mem_deriveHourly (rawData : List Sample) (p : Sample)
    (hp : p ∈ deriveHourlyAggregated rawData) :
    ∃ e ∈ groupByKey (fun q => q.timestamp / 60) rawData,
      p = avgPoint (e.1 * 60) e.2 := by
  unfold deriveHourlyAggregated at hp
  rw [(sortByTimestamp_perm _).mem_iff, List.mem_map] at hp
  obtain ⟨e, he, rfl⟩ := hp
  exact ⟨e, he, rfl⟩

theorem deriveHourly_keys_perm (rawData : List Sample) :
    ((deriveHourlyAggregated rawData).map (fun p => p.timestamp / 60)).Perm
      ((groupByKey (fun q => q.timestamp / 60) rawData).map Prod.fst) := by
  unfold deriveHourlyAggregated
  have h1 := (sortByTimestamp_perm
    ((groupByKey (fun q => q.timestamp / 60) rawData).map
      (fun e => avgPoint (e.1 * 60) e.2))).map (fun p => p.timestamp / 60)
  refine h1.trans ?_
  rw [List.map_map]
  have hcong : ∀ e ∈ groupByKey (fun q => q.timestamp / 60) rawData,
      ((fun p => p.timestamp / 60) ∘ fun e => avgPoint (e.1 * 60) e.2) e = e.1 := by
    intro e _
    simp [avgPoint, Nat.mul_div_cancel _ (by omega : (0:Nat) < 60)]
  rw [List.map_congr_left hcong]

theorem deriveHourly_ts_perm (rawData : List Sample) :
    ((deriveHourlyAggregated rawData).map (fun p => p.timestamp)).Perm
      (((groupByKey (fun q => q.timestamp / 60) rawData).map Prod.fst).map
        (fun k => k * 60)) := by
  unfold deriveHourlyAggregated
  have h1 := (sortByTimestamp_perm
    ((groupByKey (fun q => q.timestamp / 60) rawData).map
      (fun e => avgPoint (e.1 * 60) e.2))).map (fun p => p.timestamp)
  refine h1.trans ?_
  rw [List.map_map, List.map_map]
  have hcong : ∀ e ∈ groupByKey (fun q => q.timestamp / 60) rawData,
      ((fun p => p.timestamp) ∘ fun e => avgPoint (e.1 * 60) e.2) e =
        ((fun k => k * 60) ∘ Prod.fst) e := by
    intro e _
    simp [avgPoint]
  rw [List.map_congr_left hcong]

theorem mem_deriveDaily (nowMinuteOfDay : Nat) (hourlyData : List Sample) (p : Sample)
    (hp : p ∈ deriveDailyAggregated nowMinuteOfDay hourlyData) :
    ∃ e ∈ groupByKey (fun q => q.timestamp / 1440) hourlyData,
      p = avgPoint (e.1 * 1440 + nowMinuteOfDay) e.2 := by
  unfold deriveDailyAggregated at hp
  rw [(sortByTimestamp_perm _).mem_iff, List.mem_map] at hp
  obtain ⟨e, he, rfl⟩ := hp
  exact ⟨e, he, rfl⟩

/-! ## Helper lemmas on the generated raw series and window filtering -/

theorem generateRawMetrics_eq (vals : Nat → ℚ × ℚ × ℚ × ℚ)
    (startDay numDays : Nat) :
    generateRawMetrics vals startDay numDays =
      (List.range (numDays * 1440)).map
        (fun i => rawSample vals (startDay * 1440 + i)) := by
  induction numDays with
  | zero => simp [generateRawMetrics]
  | succ n ih =>
    unfold generateRawMetrics at ih ⊢
    rw [List.range_succ, List.flatMap_append, ih, Nat.succ_mul, List.range_add,
      List.map_append, List.map_map]
    simp only [List.flatMap_cons, List.flatMap_nil, List.append_nil]
    have hcong : ∀ m ∈ List.range 1440,
        rawSample vals ((startDay + n) * 1440 + m) =
          ((fun i => rawSample vals (startDay * 1440 + i)) ∘ fun x => n * 1440 + x) m := by
      intro m _
      simp only [Function.comp]
      have harith : (startDay + n) * 1440 + m = startDay * 1440 + (n * 1440 + m) := by
        ring
      rw [harith]
    rw [List.map_congr_left hcong]

theorem filter_le_range (n b : Nat) :
    (List.range n).filter (fun i => i ≤ b) = List.range (min n (b + 1)) := by
  induction n with
  | zero => simp
  | succ n ih =>
    rw [List.range_succ, List.filter_append, ih]
    by_cases h : n ≤ b
    · rw [(by omega : min (n + 1) (b + 1) = n + 1), (by omega : min n (b + 1) = n)]
      simp [h, List.range_succ]
    · rw [(by omega : min (n + 1) (b + 1) = min n (b + 1))]
      simp [h]

theorem filter_ge_range (n a : Nat) :
    (List.range n).filter (fun i => a ≤ i) =
      (List.range (n - a)).map (fun i => a + i) := by
  induction n with
  | zero => simp
  | succ n ih =>
    rw [List.range_succ, List.filter_append, ih]
    by_cases h : a ≤ n
    · rw [(by omega : n + 1 - a = (n - a) + 1), List.range_succ, List.map_append]
      simp [h]
    · rw [(by omega : n + 1 - a = 0), (by omega : n - a = 0)]
      simp [h]

theorem filter_interval_range (n a b : Nat) (hab : a ≤ b) (hb : b < n) :
    (List.range n).filter (fun i => a ≤ i ∧ i ≤ b) =
      (List.range (b + 1 - a)).map (fun i => a + i) := by
  have h1 : (List.range n).filter (fun i => a ≤ i ∧ i ≤ b) =
      ((List.range n).filter (fun i => i ≤ b)).filter (fun i => a ≤ i) := by
    rw [List.filter_filter]
    apply List.filter_congr
    intro i _
    by_cases h2 : a ≤ i <;> by_cases h3 : i ≤ b <;> simp [h2, h3]
  rw [h1, filter_le_range, (by omega : min n (b + 1) = b + 1), filter_ge_range]

theorem filterWindow_gen (vals : Nat → ℚ × ℚ × ℚ × ℚ) (base n a b : Nat)
    (hba : base ≤ a) (hab : a ≤ b) (hb : b < base + n) :
    filterWindow a b ((List.range n).map (fun i => rawSample vals (base + i))) =
      (List.range (b + 1 - a)).map (fun i => rawSample vals (a + i)) := by
  unfold filterWindow
  rw [List.filter_map]
  have hcong : ((List.range n).filter
      (fun i => ((fun p => decide (a ≤ p.timestamp ∧ p.timestamp ≤ b)) ∘
        (fun i => rawSample vals (base + i))) i)) =
      (List.range n).filter (fun i => (a - base) ≤ i ∧ i ≤ (b - base)) := by
    apply List.filter_congr
    intro i _
    simp only [Function.comp, rawSample, decide_eq_decide]
    omega
  rw [hcong, filter_interval_range n (a - base) (b - base) (by omega) (by omega),
    List.map_map]
  have h2 : b - base + 1 - (a - base) = b + 1 - a := by omega
  rw [h2]
  apply List.map_congr_left
  intro i _
  simp only [Function.comp]
  congr 1
  omega

theorem decimate_timestamps_of_gt (d : MetricsData) (T : Nat)
    (h : T < d.timestamps.length) :
    (decimate d T).timestamps =
      (sampledIndices d.timestamps.length T).map (fun i => d.timestamps.getD i 0) := by
  rw [decimate_of_gt d T h]

/-! ## Claim theorems -/

/-- C1 (corrected): `getResolution`/`getDataPointCount` realise the §4.3
table on the six enumerated time ranges and never error, but for an input
outside the set the resolution default is `1h` (the switch's `default`
branch), not the claimed `15min`; the point-count default is 96 as
claimed. -/
theorem C1_resolution_policy_total (tr : String)
    (h : tr ∉ (["1h", "6h", "24h", "7d", "30d", "90d"] : List String)) :
    (getResolution "1h" = "1min" ∧ getDataPointCount "1h" = 60) ∧
    (getResolution "6h" = "5min" ∧ getDataPointCount "6h" = 72) ∧
    (getResolution "24h" = "15min" ∧ getDataPointCount "24h" = 96) ∧
    (getResolution "7d" = "1h" ∧ getDataPointCount "7d" = 168) ∧
    (getResolution "30d" = "6h" ∧ getDataPointCount "30d" = 120) ∧
    (getResolution "90d" = "1d" ∧ getDataPointCount "90d" = 90) ∧
    (getResolution tr = "1h" ∧ getDataPointCount tr = 96) := by
  simp only [List.mem_cons, List.not_mem_nil, not_or, or_false] at h
  obtain ⟨h1, h2, h3, h4, h5, h6⟩ := h
  refine ⟨by decide, by decide, by decide, by decide, by decide, by decide, ?_, ?_⟩
  · simp [getResolution, h1, h2, h3, h4, h5, h6]
  · simp [getDataPointCount, h1, h2, h3, h4, h5, h6]

/-- C1 witness: the table and the default, at the out-of-table input
`"weekly"`. -/
theorem C1_resolution_policy_total_witness :
    (getResolution "1h" = "1min" ∧ getDataPointCount "1h" = 60) ∧
    (getResolution "6h" = "5min" ∧ getDataPointCount "6h" = 72) ∧
    (getResolution "24h" = "15min" ∧ getDataPointCount "24h" = 96) ∧
    (getResolution "7d" = "1h" ∧ getDataPointCount "7d" = 168) ∧
    (getResolution "30d" = "6h" ∧ getDataPointCount "30d" = 120) ∧
    (getResolution "90d" = "1d" ∧ getDataPointCount "90d" = 90) ∧
    (getResolution "weekly" = "1h" ∧ getDataPointCount "weekly" = 96) :=
  C1_resolution_policy_total "weekly" (by decide)

/-- C1 counterexample: `"weekly"` is outside the enumerated set, yet the
policy does not return the `24h` default pair `(15min, 96)` there — the
resolution is `1h`. -/
theorem C1_default_is_not_15min :
    ("weekly" ∉ (["1h", "6h", "24h", "7d", "30d", "90d"] : List String)) ∧
    ¬(getResolution "weekly" = "15min" ∧ getDataPointCount "weekly" = 96) := by
  decide

/-- C3: decimation budget and idempotence.  For a series with strictly
increasing timestamps: within budget it is returned unchanged; over budget
the result has exactly `T` points in every array, its timestamps are the
originals gathered at indices `⌊i * N / T⌋`, they form a strictly
increasing subsequence (sublist) of the original timestamps, and
re-decimating with the same `T` is a no-op. -/
theorem C3_decimation_budget_idem (d : MetricsData) (T : Nat)
    (hsort : d.timestamps.Pairwise (· < ·)) :
    (d.timestamps.length ≤ T → decimate d T = d) ∧
    (T < d.timestamps.length →
      (decimate d T).timestamps =
        ((List.range T).map (fun i => i * d.timestamps.length / T)).map
          (fun idx => d.timestamps.getD idx 0) ∧
      (decimate d T).timestamps.length = T ∧
      (decimate d T).iopsRead.length = T ∧
      (decimate d T).iopsWrite.length = T ∧
      (decimate d T).thrRead.length = T ∧
      (decimate d T).thrWrite.length = T ∧
      (decimate d T).timestamps.Sublist d.timestamps ∧
      (decimate d T).timestamps.Pairwise (· < ·)) ∧
    decimate (decimate d T) T = decimate d T := by
  refine ⟨decimate_of_le d T, ?_, ?_⟩
  · intro h
    have he := decimate_of_gt d T h
    have hlen := sampledIndices_length d.timestamps.length T h
    have hpw := sampledIndices_pairwise d.timestamps.length T h
    have hbd := sampledIndices_lt d.timestamps.length T
    refine ⟨?_, ?_, ?_, ?_, ?_, ?_, ?_, ?_⟩
    · rw [he, ← sampledIndices_eq _ _ h]
    · rw [he]; simp [hlen]
    · rw [he]; simp [hlen]
    · rw [he]; simp [hlen]
    · rw [he]; simp [hlen]
    · rw [he]; simp [hlen]
    · rw [he]; exact map_getD_sublist _ _ _ hpw hbd
    · rw [he]; exact map_getD_pairwise_lt _ _ hpw hbd hsort
  · by_cases h : d.timestamps.length ≤ T
    · rw [decimate_of_le d T h, decimate_of_le d T h]
    · have h2 : T < d.timestamps.length := by omega
      apply decimate_of_le
      rw [decimate_of_gt d T h2]
      simp [sampledIndices_length _ _ h2]

/-- C3 witness: a five-point series decimated to a three-point budget. -/
theorem C3_decimation_budget_idem_witness :
    ((⟨[10, 20, 30, 40, 50], [1, 2, 3, 4, 5], [1, 2, 3, 4, 5], [1, 2, 3, 4, 5],
        [1, 2, 3, 4, 5]⟩ : MetricsData).timestamps.length ≤ 3 →
      decimate ⟨[10, 20, 30, 40, 50], [1, 2, 3, 4, 5], [1, 2, 3, 4, 5], [1, 2, 3, 4, 5],
        [1, 2, 3, 4, 5]⟩ 3 =
        ⟨[10, 20, 30, 40, 50], [1, 2, 3, 4, 5], [1, 2, 3, 4, 5], [1, 2, 3, 4, 5],
          [1, 2, 3, 4, 5]⟩) ∧
    (3 < (⟨[10, 20, 30, 40, 50], [1, 2, 3, 4, 5], [1, 2, 3, 4, 5], [1, 2, 3, 4, 5],
        [1, 2, 3, 4, 5]⟩ : MetricsData).timestamps.length →
      (decimate ⟨[10, 20, 30, 40, 50], [1, 2, 3, 4, 5], [1, 2, 3, 4, 5], [1, 2, 3, 4, 5],
          [1, 2, 3, 4, 5]⟩ 3).timestamps =
        ((List.range 3).map (fun i =>
            i * (⟨[10, 20, 30, 40, 50], [1, 2, 3, 4, 5], [1, 2, 3, 4, 5], [1, 2, 3, 4, 5],
              [1, 2, 3, 4, 5]⟩ : MetricsData).timestamps.length / 3)).map
          (fun idx =>
            (⟨[10, 20, 30, 40, 50], [1, 2, 3, 4, 5], [1, 2, 3, 4, 5], [1, 2, 3, 4, 5],
              [1, 2, 3, 4, 5]⟩ : MetricsData).timestamps.getD idx 0) ∧
      (decimate ⟨[10, 20, 30, 40, 50], [1, 2, 3, 4, 5], [1, 2, 3, 4, 5], [1, 2, 3, 4, 5],
          [1, 2, 3, 4, 5]⟩ 3).timestamps.length = 3 ∧
      (decimate ⟨[10, 20, 30, 40, 50], [1, 2, 3, 4, 5], [1, 2, 3, 4, 5], [1, 2, 3, 4, 5],
          [1, 2, 3, 4, 5]⟩ 3).iopsRead.length = 3 ∧
      (decimate ⟨[10, 20, 30, 40, 50], [1, 2, 3, 4, 5], [1, 2, 3, 4, 5], [1, 2, 3, 4, 5],
          [1, 2, 3, 4, 5]⟩ 3).iopsWrite.length = 3 ∧
      (decimate ⟨[10, 20, 30, 40, 50], [1, 2, 3, 4, 5], [1, 2, 3, 4, 5], [1, 2, 3, 4, 5],
          [1, 2, 3, 4, 5]⟩ 3).thrRead.length = 3 ∧
      (decimate ⟨[10, 20, 30, 40, 50], [1, 2, 3, 4, 5], [1, 2, 3, 4, 5], [1, 2, 3, 4, 5],
          [1, 2, 3, 4, 5]⟩ 3).thrWrite.length = 3 ∧
      (decimate ⟨[10, 20, 30, 40, 50], [1, 2, 3, 4, 5], [1, 2, 3, 4, 5], [1, 2, 3, 4, 5],
          [1, 2, 3, 4, 5]⟩ 3).timestamps.Sublist
        (⟨[10, 20, 30, 40, 50], [1, 2, 3, 4, 5], [1, 2, 3, 4, 5], [1, 2, 3, 4, 5],
          [1, 2, 3, 4, 5]⟩ : MetricsData).timestamps ∧
      (decimate ⟨[10, 20, 30, 40, 50], [1, 2, 3, 4, 5], [1, 2, 3, 4, 5], [1, 2, 3, 4, 5],
          [1, 2, 3, 4, 5]⟩ 3).timestamps.Pairwise (· < ·)) ∧
    decimate
        (decimate ⟨[10, 20, 30, 40, 50], [1, 2, 3, 4, 5], [1, 2, 3, 4, 5], [1, 2, 3, 4, 5],
          [1, 2, 3, 4, 5]⟩ 3) 3 =
      decimate ⟨[10, 20, 30, 40, 50], [1, 2, 3, 4, 5], [1, 2, 3, 4, 5], [1, 2, 3, 4, 5],
        [1, 2, 3, 4, 5]⟩ 3 :=
  C3_decimation_budget_idem
    ⟨[10, 20, 30, 40, 50], [1, 2, 3, 4, 5], [1, 2, 3, 4, 5], [1, 2, 3, 4, 5],
      [1, 2, 3, 4, 5]⟩ 3 (by decide)

/-- C2: the resolution override is cosmetic — for every cluster id, time
range, override and artifact store, the data payload and the set of
artifact reads of `index` are identical to those of the same request with
no override. -/
theorem C2_resolution_override_cosmetic
    (clusterId timeRange resolution : Option String)
    (store : String → String → Option MetricsData) :
    dataOf (index clusterId timeRange resolution store).1 =
      dataOf (index clusterId timeRange none store).1 ∧
    (index clusterId timeRange resolution store).2 =
      (index clusterId timeRange none store).2 := by
  unfold index
  by_cases hc : strFalsy clusterId = true
  · simp [hc]
  · simp only [hc, Bool.false_eq_true, if_false]
    cases store (clusterId.getD "")
        (fileNameFor (if strFalsy timeRange then "24h" else timeRange.getD "24h")) <;>
      simp [dataOf]

/-- C4: hourly aggregation correctness.  For a chronological raw series the
hourly output has timestamps at exact hour boundaries, exactly one point
per non-empty hour bucket and none for empty buckets, each channel value
the rounded arithmetic mean of its bucket's constituent raw samples, and
the output is chronological (strictly increasing timestamps). -/
theorem C4_hourly_aggregation (rawData : List Sample)
    (hchron : rawData.Pairwise (fun a b => a.timestamp < b.timestamp)) :
    (∀ p ∈ deriveHourlyAggregated rawData, p.timestamp % 60 = 0) ∧
    ((deriveHourlyAggregated rawData).map (fun p => p.timestamp / 60)).Nodup ∧
    (∀ k : Nat, k ∈ (deriveHourlyAggregated rawData).map (fun p => p.timestamp / 60) ↔
      k ∈ rawData.map (fun p => p.timestamp / 60)) ∧
    (∀ p ∈ deriveHourlyAggregated rawData,
      p.iopsRead = round1 (avgChannel ((rawData.filter
          (fun q => q.timestamp / 60 = p.timestamp / 60)).map Sample.iopsRead)) ∧
      p.iopsWrite = round1 (avgChannel ((rawData.filter
          (fun q => q.timestamp / 60 = p.timestamp / 60)).map Sample.iopsWrite)) ∧
      p.thrRead = round1 (avgChannel ((rawData.filter
          (fun q => q.timestamp / 60 = p.timestamp / 60)).map Sample.thrRead)) ∧
      p.thrWrite = round1 (avgChannel ((rawData.filter
          (fun q => q.timestamp / 60 = p.timestamp / 60)).map Sample.thrWrite))) ∧
    (deriveHourlyAggregated rawData).Pairwise (fun a b => a.timestamp < b.timestamp) := by
  refine ⟨?_, ?_, ?_, ?_, ?_⟩
  · intro p hp
    obtain ⟨e, he, rfl⟩ := mem_deriveHourly rawData p hp
    simp [avgPoint]
  · rw [(deriveHourly_keys_perm rawData).nodup_iff]
    exact groupByKey_keys_nodup _ _
  · intro k
    rw [(deriveHourly_keys_perm rawData).mem_iff, mem_keys_groupByKey, List.mem_map]
  · intro p hp
    obtain ⟨e, he, rfl⟩ := mem_deriveHourly rawData p hp
    have hfil := mem_groupByKey_eq_filter (fun q => q.timestamp / 60) rawData e he
    have hts : (avgPoint (e.1 * 60) e.2).timestamp / 60 = e.1 := by
      simp [avgPoint, Nat.mul_div_cancel _ (by omega : (0:Nat) < 60)]
    rw [hts]
    refine ⟨?_, ?_, ?_, ?_⟩ <;> simp [avgPoint, hfil]
  · have hnd : ((deriveHourlyAggregated rawData).map (fun p => p.timestamp)).Nodup := by
      rw [(deriveHourly_ts_perm rawData).nodup_iff]
      refine List.Nodup.map ?_ (groupByKey_keys_nodup _ _)
      intro a b hab
      simp only at hab
      omega
    have hne : (deriveHourlyAggregated rawData).Pairwise
        (fun a b => a.timestamp ≠ b.timestamp) := by
      rw [← List.pairwise_map (f := fun p : Sample => p.timestamp)]
      exact hnd
    have hle : (deriveHourlyAggregated rawData).Pairwise
        (fun a b => a.timestamp ≤ b.timestamp) := sortByTimestamp_sorted _
    exact (hle.and hne).imp (fun h => by omega)

/-- C4 witness: a two-point chronological raw series whose points fall in
different hours. -/
theorem C4_hourly_aggregation_witness :
    (∀ p ∈ deriveHourlyAggregated [⟨0, 1, 1, 1, 1⟩, ⟨61, 2, 2, 2, 2⟩],
      p.timestamp % 60 = 0) ∧
    ((deriveHourlyAggregated [⟨0, 1, 1, 1, 1⟩, ⟨61, 2, 2, 2, 2⟩]).map
        (fun p => p.timestamp / 60)).Nodup ∧
    (∀ k : Nat,
      k ∈ (deriveHourlyAggregated [⟨0, 1, 1, 1, 1⟩, ⟨61, 2, 2, 2, 2⟩]).map
          (fun p => p.timestamp / 60) ↔
      k ∈ ([⟨0, 1, 1, 1, 1⟩, ⟨61, 2, 2, 2, 2⟩] : List Sample).map
          (fun p => p.timestamp / 60)) ∧
    (∀ p ∈ deriveHourlyAggregated [⟨0, 1, 1, 1, 1⟩, ⟨61, 2, 2, 2, 2⟩],
      p.iopsRead = round1 (avgChannel ((([⟨0, 1, 1, 1, 1⟩, ⟨61, 2, 2, 2, 2⟩] :
          List Sample).filter
          (fun q => q.timestamp / 60 = p.timestamp / 60)).map Sample.iopsRead)) ∧
      p.iopsWrite = round1 (avgChannel ((([⟨0, 1, 1, 1, 1⟩, ⟨61, 2, 2, 2, 2⟩] :
          List Sample).filter
          (fun q => q.timestamp / 60 = p.timestamp / 60)).map Sample.iopsWrite)) ∧
      p.thrRead = round1 (avgChannel ((([⟨0, 1, 1, 1, 1⟩, ⟨61, 2, 2, 2, 2⟩] :
          List Sample).filter
          (fun q => q.timestamp / 60 = p.timestamp / 60)).map Sample.thrRead)) ∧
      p.thrWrite = round1 (avgChannel ((([⟨0, 1, 1, 1, 1⟩, ⟨61, 2, 2, 2, 2⟩] :
          List Sample).filter
          (fun q => q.timestamp / 60 = p.timestamp / 60)).map Sample.thrWrite))) ∧
    (deriveHourlyAggregated [⟨0, 1, 1, 1, 1⟩, ⟨61, 2, 2, 2, 2⟩]).Pairwise
      (fun a b => a.timestamp < b.timestamp) :=
  C4_hourly_aggregation [⟨0, 1, 1, 1, 1⟩, ⟨61, 2, 2, 2, 2⟩] (by decide)

/-- C5: the daily timestamp quirk.  Each daily point is stamped with its
calendar day (`timestamp / 1440`, a day present in the hourly input)
combined with the wall-clock minute-of-day current at aggregation time, so
all daily points share the same hour:minute. -/
theorem C5_daily_timestamp_quirk (nowMinuteOfDay : Nat) (hourlyData : List Sample)
    (hnow : nowMinuteOfDay < 1440) :
    (∀ p ∈ deriveDailyAggregated nowMinuteOfDay hourlyData,
      p.timestamp % 1440 = nowMinuteOfDay ∧
      p.timestamp = p.timestamp / 1440 * 1440 + nowMinuteOfDay ∧
      p.timestamp / 1440 ∈ hourlyData.map (fun q => q.timestamp / 1440)) ∧
    (∀ p ∈ deriveDailyAggregated nowMinuteOfDay hourlyData,
      ∀ q ∈ deriveDailyAggregated nowMinuteOfDay hourlyData,
        p.timestamp % 1440 = q.timestamp % 1440) := by
  have key : ∀ p ∈ deriveDailyAggregated nowMinuteOfDay hourlyData,
      p.timestamp % 1440 = nowMinuteOfDay ∧
      p.timestamp = p.timestamp / 1440 * 1440 + nowMinuteOfDay ∧
      p.timestamp / 1440 ∈ hourlyData.map (fun q => q.timestamp / 1440) := by
    intro p hp
    obtain ⟨e, he, rfl⟩ := mem_deriveDaily nowMinuteOfDay hourlyData p hp
    have hmem := mem_groupByKey_key_mem (fun q => q.timestamp / 1440) hourlyData e he
    have hts : (avgPoint (e.1 * 1440 + nowMinuteOfDay) e.2).timestamp =
        e.1 * 1440 + nowMinuteOfDay := rfl
    refine ⟨by rw [hts]; omega, by rw [hts]; omega, ?_⟩
    rw [hts]
    have hdiv : (e.1 * 1440 + nowMinuteOfDay) / 1440 = e.1 := by omega
    rw [hdiv, List.mem_map]
    obtain ⟨q, hq, hk⟩ := hmem
    exact ⟨q, hq, hk⟩
  refine ⟨key, ?_⟩
  intro p hp q hq
  rw [(key p hp).1, (key q hq).1]

/-- C5 witness: aggregation at wall-clock minute 90 (01:30) of a two-point
hourly series spanning two calendar days. -/
theorem C5_daily_timestamp_quirk_witness :
    (∀ p ∈ deriveDailyAggregated 90 [⟨0, 1, 1, 1, 1⟩, ⟨1500, 2, 2, 2, 2⟩],
      p.timestamp % 1440 = 90 ∧
      p.timestamp = p.timestamp / 1440 * 1440 + 90 ∧
      p.timestamp / 1440 ∈ ([⟨0, 1, 1, 1, 1⟩, ⟨1500, 2, 2, 2, 2⟩] : List Sample).map
          (fun q => q.timestamp / 1440)) ∧
    (∀ p ∈ deriveDailyAggregated 90 [⟨0, 1, 1, 1, 1⟩, ⟨1500, 2, 2, 2, 2⟩],
      ∀ q ∈ deriveDailyAggregated 90 [⟨0, 1, 1, 1, 1⟩, ⟨1500, 2, 2, 2, 2⟩],
        p.timestamp % 1440 = q.timestamp % 1440) :=
  C5_daily_timestamp_quirk 90 [⟨0, 1, 1, 1, 1⟩, ⟨1500, 2, 2, 2, 2⟩] (by decide)

/-- C8: index alignment invariant.  Every series produced by a pipeline
transform — hourly aggregation, daily aggregation, window
filtering/persistence, and decimation of an aligned series — has its four
channel arrays the same length as its timestamp array. -/
theorem C8_index_alignment (rawData hourlyData src : List Sample)
    (nowMinuteOfDay lo hi : Nat) (d : MetricsData)
    (targetResolution timeRange : String) (hal : aligned d) :
    aligned (toColumnar (deriveHourlyAggregated rawData)) ∧
    aligned (toColumnar (deriveDailyAggregated nowMinuteOfDay hourlyData)) ∧
    aligned (toColumnar (filterWindow lo hi src)) ∧
    aligned (applyOptimalSampling d targetResolution timeRange) := by
  refine ⟨?_, ?_, ?_, ?_⟩
  · simp [aligned, toColumnar]
  · simp [aligned, toColumnar]
  · simp [aligned, toColumnar]
  · unfold applyOptimalSampling
    by_cases h : d.timestamps.length ≤ getDataPointCount timeRange
    · rw [decimate_of_le d _ h]
      exact hal
    · rw [decimate_of_gt d _ (by omega)]
      simp [aligned]

/-- C8 witness: the transforms at concrete inputs, with an aligned input
series for the decimation step. -/
theorem C8_index_alignment_witness :
    aligned (toColumnar (deriveHourlyAggregated [⟨0, 1, 1, 1, 1⟩, ⟨61, 2, 2, 2, 2⟩])) ∧
    aligned (toColumnar (deriveDailyAggregated 90 [⟨0, 1, 1, 1, 1⟩, ⟨61, 2, 2, 2, 2⟩])) ∧
    aligned (toColumnar (filterWindow 0 100 [⟨0, 1, 1, 1, 1⟩, ⟨61, 2, 2, 2, 2⟩])) ∧
    aligned (applyOptimalSampling
      ⟨[10, 20, 30, 40, 50], [1, 2, 3, 4, 5], [1, 2, 3, 4, 5], [1, 2, 3, 4, 5],
        [1, 2, 3, 4, 5]⟩ "15min" "bogus") :=
  C8_index_alignment [⟨0, 1, 1, 1, 1⟩, ⟨61, 2, 2, 2, 2⟩] [⟨0, 1, 1, 1, 1⟩, ⟨61, 2, 2, 2, 2⟩]
    [⟨0, 1, 1, 1, 1⟩, ⟨61, 2, 2, 2, 2⟩] 90 0 100
    ⟨[10, 20, 30, 40, 50], [1, 2, 3, 4, 5], [1, 2, 3, 4, 5], [1, 2, 3, 4, 5],
      [1, 2, 3, 4, 5]⟩ "15min" "bogus" (by decide)

/-- C6 (Scenario A): serving `GetMetrics("c1", "1h")` against the freshly
regenerated store.  Whenever "now" lies at least one hour after the start
of the generated span and strictly before its end, the response reports
resolution `1min` and carries exactly 60 points whose timestamps are the
60 consecutive minutes `nowT - 60, …, nowT - 1` — the inclusive window
`[now - 1h, now]` (61 minute marks) decimated to the 60-point budget,
covering precisely the most recent 60 minutes before "now". -/
theorem C6_scenario_one_hour (vals : Nat → ℚ × ℚ × ℚ × ℚ)
    (startDay numDays nowT nowMinuteOfDay : Nat)
    (h1 : startDay * 1440 + 60 ≤ nowT)
    (h2 : nowT < (startDay + numDays) * 1440) :
    resolutionOf (index (some "c1") (some "1h") none
        (regenStore nowT nowMinuteOfDay (generateRawMetrics vals startDay numDays))).1 =
      some "1min" ∧
    (dataOf (index (some "c1") (some "1h") none
        (regenStore nowT nowMinuteOfDay (generateRawMetrics vals startDay numDays))).1).map
        MetricsData.timestamps =
      some ((List.range 60).map (fun i => nowT - 60 + i)) ∧
    (dataOf (index (some "c1") (some "1h") none
        (regenStore nowT nowMinuteOfDay (generateRawMetrics vals startDay numDays))).1).map
        (fun d => d.timestamps.length) = some 60 ∧
    (∀ d, dataOf (index (some "c1") (some "1h") none
        (regenStore nowT nowMinuteOfDay (generateRawMetrics vals startDay numDays))).1 =
          some d →
      ∀ t ∈ d.timestamps, nowT - 60 ≤ t ∧ t < nowT) := by
  have hwin : filterWindow (nowT - 60) nowT (generateRawMetrics vals startDay numDays) =
      (List.range 61).map (fun i => rawSample vals (nowT - 60 + i)) := by
    rw [generateRawMetrics_eq]
    rw [filterWindow_gen vals (startDay * 1440) (numDays * 1440) (nowT - 60) nowT
      (by omega) (by omega) (by omega)]
    rw [(by omega : nowT + 1 - (nowT - 60) = 61)]
  have hstore : regenStore nowT nowMinuteOfDay (generateRawMetrics vals startDay numDays)
      "c1" "raw-metrics-1h.json" =
      some (toColumnar (filterWindow (nowT - 60) nowT
        (generateRawMetrics vals startDay numDays))) := by
    simp [regenStore, createConsolidatedDatasets, List.lookup]
  have hDts : (toColumnar (filterWindow (nowT - 60) nowT
      (generateRawMetrics vals startDay numDays))).timestamps =
      (List.range 61).map (fun i => nowT - 60 + i) := by
    rw [hwin]
    simp only [toColumnar, List.map_map]
    apply List.map_congr_left
    intro i _
    simp [rawSample]
  have hDlen : (toColumnar (filterWindow (nowT - 60) nowT
      (generateRawMetrics vals startDay numDays))).timestamps.length = 61 := by
    rw [hDts]
    simp
  have hsi : sampledIndices 61 60 = List.range 60 := by decide
  have happ : (applyOptimalSampling
      (toColumnar (filterWindow (nowT - 60) nowT
        (generateRawMetrics vals startDay numDays)))
      (getResolution "1h") "1h").timestamps =
      (List.range 60).map (fun i => nowT - 60 + i) := by
    unfold applyOptimalSampling
    rw [(by decide : getDataPointCount "1h" = 60)]
    rw [decimate_timestamps_of_gt _ 60 (by rw [hDlen]; omega)]
    rw [hDlen, hsi, hDts]
    apply List.map_congr_left
    intro i hi
    rw [List.mem_range] at hi
    rw [List.getD_eq_getElem _ _ (by simp; omega)]
    simp
  refine ⟨?_, ?_, ?_, ?_⟩
  · simp [index, strFalsy, fileNameFor, hstore, resolutionOf, getResolution]
  · simp [index, strFalsy, fileNameFor, hstore, dataOf, happ]
  · simp [index, strFalsy, fileNameFor, hstore, dataOf, happ]
  · intro d hd t ht
    simp [index, strFalsy, fileNameFor, hstore, dataOf] at hd
    subst hd
    rw [happ, List.mem_map] at ht
    obtain ⟨i, hi, rfl⟩ := ht
    rw [List.mem_range] at hi
    omega

/-- C6 witness: a one-day generated span with "now" at minute 100. -/
theorem C6_scenario_one_hour_witness :
    resolutionOf (index (some "c1") (some "1h") none
        (regenStore 100 0 (generateRawMetrics (fun _ => (1, 1, 1, 1)) 0 1))).1 =
      some "1min" ∧
    (dataOf (index (some "c1") (some "1h") none
        (regenStore 100 0 (generateRawMetrics (fun _ => (1, 1, 1, 1)) 0 1))).1).map
        MetricsData.timestamps =
      some ((List.range 60).map (fun i => 100 - 60 + i)) ∧
    (dataOf (index (some "c1") (some "1h") none
        (regenStore 100 0 (generateRawMetrics (fun _ => (1, 1, 1, 1)) 0 1))).1).map
        (fun d => d.timestamps.length) = some 60 ∧
    (∀ d, dataOf (index (some "c1") (some "1h") none
        (regenStore 100 0 (generateRawMetrics (fun _ => (1, 1, 1, 1)) 0 1))).1 =
          some d →
      ∀ t ∈ d.timestamps, 100 - 60 ≤ t ∧ t < 100) :=
  C6_scenario_one_hour (fun _ => (1, 1, 1, 1)) 0 1 100 0 (by omega) (by omega)

/-- C7 (code bug): regeneration is not all-or-nothing.  The very first
operation deletes the prior complete set, and after the third operation
(remove, mkdir, first write) a reader sees a one-file partial set that is
neither the prior complete set nor the new complete set. -/
theorem C7_regen_partial_state_visible :
    runFsOps (some consolidatedFileNames) (regenOps.take 1) = none ∧
    runFsOps (some consolidatedFileNames) (regenOps.take 3) =
      some ["raw-metrics-1h.json"] ∧
    (["raw-metrics-1h.json"] : List String) ≠ consolidatedFileNames ∧
    runFsOps (some consolidatedFileNames) regenOps = some consolidatedFileNames := by
  decide

/-- C9: a missing or empty `clusterId` is rejected with the validation
error for every time range, override and store, and the artifact-read log
is empty — no I/O is attempted. -/
theorem C9_validation_before_io (clusterId timeRange resolution : Option String)
    (store : String → String → Option MetricsData)
    (h : clusterId = none ∨ clusterId = some "") :
    index clusterId timeRange resolution store =
      (MetricsResponse.validationError "clusterId is required", []) := by
  rcases h with h | h <;> subst h <;> rfl

/-- C9 witness: the empty cluster id with a 24h range against a store
holding data for every key. -/
theorem C9_validation_before_io_witness :
    index (some "") (some "24h") (some "1min") (fun _ _ => some emptyData) =
      (MetricsResponse.validationError "clusterId is required", []) :=
  C9_validation_before_io (some "") (some "24h") (some "1min")
    (fun _ _ => some emptyData) (Or.inr rfl)

/-- C10: when the consolidated file for the requested range exists but is
empty, `index` answers with a success response whose `totalPoints` is 0 and
whose `startTime`/`endTime` are the absent values produced by the
out-of-bounds reads `timestamps[0]` and `timestamps[length - 1]` — no
error and no guard. -/
theorem C10_empty_dataset_success (clusterId : String)
    (timeRange resolution : Option String)
    (store : String → String → Option MetricsData)
    (hcid : ¬clusterId = "")
    (hread : store clusterId
        (fileNameFor (if strFalsy timeRange then "24h" else timeRange.getD "24h")) =
      some emptyData) :
    dataOf (index (some clusterId) timeRange resolution store).1 = some emptyData ∧
    metadataOf (index (some clusterId) timeRange resolution store).1 =
      some (0, none, none) := by
  have hfal : strFalsy (some clusterId) = false := by
    simp [strFalsy, hcid]
  unfold index
  rw [hfal]
  simp only [Bool.false_eq_true, if_false, Option.getD_some]
  rw [hread]
  simp [applyOptimalSampling, decimate, emptyData, dataOf, metadataOf]

/-- C10 witness: a store holding an empty 24h dataset for `"c1"`. -/
theorem C10_empty_dataset_success_witness :
    dataOf (index (some "c1") none none
        (fun cid fn =>
          if cid = "c1" ∧ fn = "raw-metrics-24h.json" then some emptyData else none)).1 =
      some emptyData ∧
    metadataOf (index (some "c1") none none
        (fun cid fn =>
          if cid = "c1" ∧ fn = "raw-metrics-24h.json" then some emptyData else none)).1 =
      some (0, none, none) :=
  C10_empty_dataset_success "c1" none none
    (fun cid fn =>
      if cid = "c1" ∧ fn = "raw-metrics-24h.json" then some emptyData else none)
    (by decide) (by decide)

end ClusterMetrics
